import Mathlib

/-!
Shallow embedding of the OpenEMR ai-agent appointment engine:
`ai_agent/openemr_client.py` (OAuth2 password-grant client with one-shot
401 retry) and `ai_agent/tools/find_appointments.py` (patient resolution,
appointment aggregation, filtering and formatting).

Remote JSON records are untyped bags of optional fields; we model each
field read by the Python code as an `Option` field, and Python truthiness
(`if x:`) explicitly: `None` and the empty string are falsy for strings,
`None` and `0` are falsy for integers, and a list is falsy iff empty.
-/

namespace OpenEMR

/-- Python truthiness of an optional string (`None` and `""` are falsy). -/
def strTruthy : Option String → Bool
  | none => false
  | some s => !(s == "")

/-- Python truthiness of an optional integer (`None` and `0` are falsy). -/
def natTruthy : Option Nat → Bool
  | none => false
  | some n => !(n == 0)

/-- Python `a or b` on optional integers: `b` when `a` is falsy, else `a`.
Embeds `appt.get("pc_pid") or appt.get("pid")`. -/
def pyOrNat (a b : Option Nat) : Option Nat :=
  if natTruthy a then a else b

/-- A raw patient record as read by the code: `p.get("pid")`,
`p.get("fname", "")`, `p.get("lname", "")`, `p.get("DOB", "")`. -/
structure Patient where
  pid : Option Nat
  fname : Option String
  lname : Option String
  DOB : Option String
deriving Repr, DecidableEq

/-- A raw appointment record: exactly the fields
`ai_agent/tools/find_appointments.py` reads via `.get`. -/
structure RawAppt where
  pc_eid : Option Nat
  fname : Option String
  lname : Option String
  pc_pid : Option Nat
  pid : Option Nat
  pce_aid_fname : Option String
  pce_aid_lname : Option String
  pc_eventDate : Option String
  pc_startTime : Option String
  pc_endTime : Option String
  pc_apptstatus : Option String
  pc_title : Option String
  facility_name : Option String
  pc_hometext : Option String
deriving Repr, DecidableEq

/-- A raw appointment record with every field absent. -/
def emptyRawAppt : RawAppt :=
  ⟨none, none, none, none, none, none, none, none, none, none, none, none, none, none⟩

/-- The `_STATUS_LABELS` table of `find_appointments.py`. -/
def STATUS_LABELS : List (String × String) :=
  [("-", "Open"), ("@", "Arrived"), ("~", "Arrived late"),
   ("!", "Left w/o being seen"), ("#", "Ins/fin issue"), ("<", "In exam room"),
   (">", "Checked out"), ("$", "Coding done"), ("%", "Cancelled"),
   ("x", "No show"), ("^", "Pending")]

/-- `_STATUS_LABELS.get(status_code, status_code)`. -/
def statusLabel (code : String) : String :=
  (STATUS_LABELS.lookup code).getD code

/-- Drop leading whitespace characters. -/
def dropLeadingWS : List Char → List Char
  | [] => []
  | c :: cs => if c.isWhitespace then dropLeadingWS cs else c :: cs

/-- Python `s.strip()`: drop whitespace from both ends. -/
def pyStrip (s : String) : String :=
  ⟨(dropLeadingWS (dropLeadingWS s.data.reverse).reverse)⟩

/-- Python `f"{a} {b}".strip()`: join with one space, then strip edges. -/
def joinStrip (a b : String) : String :=
  pyStrip (a ++ " " ++ b)

/-- Python `" ".join(xs)`: the elements joined with a single space. -/
def joinSep : List String → String
  | [] => ""
  | [x] => x
  | x :: y :: xs => x ++ " " ++ joinSep (y :: xs)

/-- Python `" ".join(p for p in parts if p)`: drop falsy (empty) parts,
join the rest with single spaces. -/
def joinNonBlank (parts : List String) : String :=
  joinSep (parts.filter (fun p => !(p == "")))

/-- The tool's normalised output record (`_format_appointment`'s dict). -/
structure NormAppt where
  appointment_id : Option Nat
  patient_name : String
  patient_id : Option Nat
  provider_name : String
  date : String
  start_time : String
  end_time : String
  status : String
  status_label : String
  category : String
  facility : String
  reason : String
deriving Repr, DecidableEq

/-- `_format_appointment(appt)`: normalise a raw record field by field. -/
def format_appointment (a : RawAppt) : NormAppt :=
  let status_code := a.pc_apptstatus.getD ""
  { appointment_id := a.pc_eid
    patient_name := joinStrip (a.fname.getD "") (a.lname.getD "")
    patient_id := pyOrNat a.pc_pid a.pid
    provider_name := joinNonBlank [a.pce_aid_fname.getD "", a.pce_aid_lname.getD ""]
    date := a.pc_eventDate.getD ""
    start_time := a.pc_startTime.getD ""
    end_time := a.pc_endTime.getD ""
    status := status_code
    status_label := statusLabel status_code
    category := a.pc_title.getD ""
    facility := a.facility_name.getD ""
    reason := a.pc_hometext.getD "" }

/-- Substring occurrence on character lists: `matchHere n h` is Python
`h.startswith(n)` used to build `n in h`. -/
def matchHere : List Char → List Char → Bool
  | [], _ => true
  | _ :: _, [] => false
  | a :: as, b :: bs => a == b && matchHere as bs

/-- Python `needle in haystack` on strings, over character lists. -/
def subOccurs (needle : List Char) : List Char → Bool
  | [] => needle.isEmpty
  | c :: cs => matchHere needle (c :: cs) || subOccurs needle cs

/-- Python `s.lower()` as a character list (ASCII lowering suffices for
this API's provider names). -/
def lowerChars (s : String) : List Char :=
  s.data.map Char.toLower

/-- Python `needle in haystack` on `String`, both sides lowered. -/
def strContains (haystack needle : String) : Bool :=
  subOccurs (lowerChars needle) (lowerChars haystack)

/-- `_matches_provider(appt, provider_name)`: case-insensitive substring
match against `f"{pce_aid_fname} {pce_aid_lname}"`. -/
def matches_provider (a : RawAppt) (provider_name : String) : Bool :=
  strContains ((a.pce_aid_fname.getD "") ++ " " ++ (a.pce_aid_lname.getD "")) provider_name

/-- The date filter predicate: `a.get("pc_eventDate") == date`. -/
def dateMatch (d : String) (a : RawAppt) : Bool :=
  a.pc_eventDate == some d

/-- The status filter predicate: `a.get("pc_apptstatus") == status`. -/
def statusMatch (s : String) (a : RawAppt) : Bool :=
  a.pc_apptstatus == some s

/-- The client-side filtering block of `_find_appointments_impl`:
each filter is applied only when its criterion is truthy, in the fixed
order date, status, provider. -/
def applyFilters (rs : List RawAppt) (date status provider_name : Option String) :
    List RawAppt :=
  let r1 := if strTruthy date then rs.filter (dateMatch (date.getD "")) else rs
  let r2 := if strTruthy status then r1.filter (statusMatch (status.getD "")) else r1
  if strTruthy provider_name then r2.filter (fun a => matches_provider a (provider_name.getD ""))
  else r2

/-! ## Remote responses, the client oracle and the call trace

Every helper normalises a response with
`resp.get("data", resp) if isinstance(resp, dict) else resp` followed by
an `isinstance(..., list)` check.  What that pipeline depends on is only:
either the extracted value is a list (bare list, or a dict whose `data`
is a list), or it is some non-list value with a Python truthiness. -/

/-- The value extracted from a remote JSON response by
`resp.get("data", resp) if isinstance(resp, dict) else resp`: either a
list of records, or a non-list value of which only truthiness matters. -/
inductive Extracted (α : Type) where
  | lst (xs : List α)
  | nonList (truthy : Bool)
deriving Repr, DecidableEq

/-- Python truthiness of the extracted value. -/
def Extracted.pyTruthy : Extracted α → Bool
  | .lst xs => !xs.isEmpty
  | .nonList t => t

/-- `x if isinstance(x, list) else []`. -/
def Extracted.toList : Extracted α → List α
  | .lst xs => xs
  | .nonList _ => []

/-- One remote API call made by `_find_appointments_impl`. -/
inductive ApiCall where
  | patientByLname (name : String)
  | patientByFname (name : String)
  | patientAppts (pid : Nat)
  | allAppts
deriving Repr, DecidableEq

/-- The remote API as a deterministic oracle: what each endpoint's
response extracts to. -/
structure Client where
  lnameResp : String → Extracted Patient
  fnameResp : String → Extracted Patient
  apptsResp : Nat → Extracted RawAppt
  allResp : Extracted RawAppt

/-- `_search_patients(client, name)` with its call trace: last-name
search first; if the extracted value is falsy, fall back to a first-name
search; finally keep the value only if it is a list. -/
def search_patients (c : Client) (name : String) : List Patient × List ApiCall :=
  let r1 := c.lnameResp name
  if r1.pyTruthy then (r1.toList, [ApiCall.patientByLname name])
  else
    let r2 := c.fnameResp name
    (r2.toList, [ApiCall.patientByLname name, ApiCall.patientByFname name])

/-- `_fetch_appointments_for_patient(client, pid)` with its call trace. -/
def fetch_appointments_for_patient (c : Client) (pid : Nat) :
    List RawAppt × List ApiCall :=
  ((c.apptsResp pid).toList, [ApiCall.patientAppts pid])

/-- `_fetch_all_appointments(client)` with its call trace. -/
def fetch_all_appointments (c : Client) : List RawAppt × List ApiCall :=
  (c.allResp.toList, [ApiCall.allAppts])

/-- `[p["pid"] for p in patients if p.get("pid")]`: the pids kept for
fetching — only truthy ones survive the comprehension's guard. -/
def resolvedPids (patients : List Patient) : List Nat :=
  patients.filterMap (fun p => if natTruthy p.pid then p.pid else none)

/-- One entry of the disambiguation list built for more than 5 matches. -/
structure MatchEntry where
  patient_id : Option Nat
  name : String
  DOB : String
deriving Repr, DecidableEq

/-- `{"patient_id": p.get("pid"), "name": f"{fname} {lname}".strip(), "DOB": ...}`. -/
def mkMatchEntry (p : Patient) : MatchEntry :=
  ⟨p.pid, joinStrip (p.fname.getD "") (p.lname.getD ""), p.DOB.getD ""⟩

/-- The result dict of `_find_appointments_impl`; optional keys are
`Option` (`none` = key absent). -/
structure FAResult where
  appointments : List NormAppt
  total_count : Nat
  message : Option String
  matching_patients : Option (List MatchEntry)
deriving Repr, DecidableEq

/-- The fetch phase: one scoped fetch per resolved pid concatenated in
order when any pid resolved, else the single unscoped fetch. -/
def fetchPhase (c : Client) (pids : List Nat) : List RawAppt × List ApiCall :=
  match pids with
  | [] => fetch_all_appointments c
  | _ :: _ =>
    ((pids.map (fun pid => (fetch_appointments_for_patient c pid).1)).flatten,
     pids.map ApiCall.patientAppts)

/-- The tail of `_find_appointments_impl` after resolution: fetch,
filter, format and assemble the result dict. -/
def fetchFilterFormat (c : Client) (pids : List Nat)
    (date provider_name status : Option String) : FAResult × List ApiCall :=
  let (raw, tr) := fetchPhase c pids
  let filtered := applyFilters raw date status provider_name
  let appointments := filtered.map format_appointment
  ({ appointments := appointments
     total_count := appointments.length
     message := if appointments.isEmpty
       then some "No appointments found matching criteria." else none
     matching_patients := none }, tr)

/-- `_find_appointments_impl`, returning the result dict together with
the ordered trace of remote API calls it issues. -/
def find_appointments_impl (c : Client) (patient_name date provider_name status : Option String)
    (patient_id : Option Nat) : FAResult × List ApiCall :=
  match patient_id with
  | some pid => fetchFilterFormat c [pid] date provider_name status
  | none =>
    if strTruthy patient_name then
      let name := patient_name.getD ""
      let (patients, tr) := search_patients c name
      if patients.isEmpty then
        ({ appointments := []
           total_count := 0
           message := some ("No patients found matching '" ++ name ++ "'.")
           matching_patients := none }, tr)
      else if patients.length > 5 then
        ({ appointments := []
           total_count := 0
           message := some ("Multiple patients match '" ++ name ++ "'. Please clarify which patient.")
           matching_patients := some ((patients.take 10).map mkMatchEntry) }, tr)
      else
        let (res, tr2) := fetchFilterFormat c (resolvedPids patients) date provider_name status
        (res, tr ++ tr2)
    else
      fetchFilterFormat c [] date provider_name status

/-! ## OAuth2 client (`ai_agent/openemr_client.py`)

Times (`time.monotonic()`) and expiries are modelled as integers; the
token endpoint and the data endpoint are oracles indexed by how many
requests have been sent to them so far. -/

/-- `_TOKEN_REFRESH_MARGIN_SECS`. -/
def TOKEN_REFRESH_MARGIN_SECS : Int := 60

/-- The mutable token state of `OpenEMRClient`:
`_access_token` (initially `None`) and `_token_expiry` (initially 0). -/
structure ClientState where
  access_token : Option String
  token_expiry : Int
deriving Repr, DecidableEq

/-- A token-endpoint response: status, body, and for a 200 the payload's
`access_token` and optional `expires_in`. -/
structure AuthResp where
  status : Nat
  body : String
  access_token : String
  expires_in : Option Int
deriving Repr, DecidableEq

/-- `OpenEMRAuthError` with the status and body its message interpolates. -/
structure AuthErr where
  status : Nat
  body : String
deriving Repr, DecidableEq

/-- A data-endpoint response: status code and body (the body standing
for `resp.json()` on success). -/
structure HttpResp where
  status : Nat
  body : String
deriving Repr, DecidableEq

/-- `authenticate()` given the token endpoint's response `r` at time
`now`: on a non-200 it raises without touching the state (the Python
method assigns `_access_token`/`_token_expiry` only after the status
check); on a 200 it stores the token and sets expiry to
`now + expires_in` (default 3600). -/
def authenticate (s : ClientState) (r : AuthResp) (now : Int) :
    ClientState × Except AuthErr Unit :=
  if r.status ≠ 200 then (s, Except.error ⟨r.status, r.body⟩)
  else ({ access_token := some r.access_token,
          token_expiry := now + r.expires_in.getD 3600 }, Except.ok ())

/-- `_token_is_valid()`: a token is present and
`now < expiry - _TOKEN_REFRESH_MARGIN_SECS`. -/
def token_is_valid (s : ClientState) (now : Int) : Bool :=
  s.access_token.isSome && decide (now < s.token_expiry - TOKEN_REFRESH_MARGIN_SECS)

/-- `_ensure_token()`: authenticate unless the cached token is valid.
Returns the state, the outcome, and the number of authentication
exchanges performed (0 or 1). -/
def ensure_token (s : ClientState) (r : AuthResp) (now : Int) :
    ClientState × Except AuthErr Unit × Nat :=
  if token_is_valid s now then (s, Except.ok (), 0)
  else
    let (s2, out) := authenticate s r now
    (s2, out, 1)

/-- One observable wire event of a `get`/`post` call: a POST to the
token endpoint, or the data request itself with the bearer token it
carried and the status it received. -/
inductive Ev where
  | authExchange (respStatus : Nat)
  | httpRequest (bearer : Option String) (respStatus : Nat)
deriving Repr, DecidableEq

/-- Number of data requests in a trace. -/
def countReq (tr : List Ev) : Nat :=
  tr.countP (fun e => match e with | Ev.httpRequest _ _ => true | _ => false)

/-- Number of token-endpoint exchanges in a trace. -/
def countAuth (tr : List Ev) : Nat :=
  tr.countP (fun e => match e with | Ev.authExchange _ => true | _ => false)

/-- The outcome of a `get`/`post` call: the response body on success, an
`HTTPStatusError` from `raise_for_status()`, or an `OpenEMRAuthError`
escaping from `authenticate()`. -/
inductive ReqOutcome where
  | ok (body : String)
  | httpError (status : Nat) (body : String)
  | authError (status : Nat) (body : String)
deriving Repr, DecidableEq

/-- `resp.raise_for_status(); return resp.json()`: any non-2xx status
raises with the response's status and body. -/
def raiseForStatus (r : HttpResp) : ReqOutcome :=
  if 200 ≤ r.status ∧ r.status ≤ 299 then ReqOutcome.ok r.body
  else ReqOutcome.httpError r.status r.body

/-- The request/retry tail shared by `get` and `post` once the token is
ensured: send the request; on a 401 re-authenticate (consuming token
response number `k`) and resend the identical request once; then
`raise_for_status`.  `resps n` is the data endpoint's response to the
n-th send of this request, `auths n` the token endpoint's n-th
response. -/
def sendPhase (s : ClientState) (k : Nat) (now : Int) (auths : Nat → AuthResp)
    (resps : Nat → HttpResp) (tr : List Ev) : ReqOutcome × List Ev :=
  let r1 := resps 0
  let tr1 := tr ++ [Ev.httpRequest s.access_token r1.status]
  if r1.status = 401 then
    let (s2, out) := authenticate s (auths k) now
    match out with
    | Except.error e =>
      (ReqOutcome.authError e.status e.body, tr1 ++ [Ev.authExchange (auths k).status])
    | Except.ok _ =>
      let r2 := resps 1
      (raiseForStatus r2,
       tr1 ++ [Ev.authExchange (auths k).status, Ev.httpRequest s2.access_token r2.status])
  else
    (raiseForStatus r1, tr1)

/-- `OpenEMRClient.get`: ensure a token, send, retry once on 401. -/
def getReq (s0 : ClientState) (now : Int) (auths : Nat → AuthResp)
    (resps : Nat → HttpResp) : ReqOutcome × List Ev :=
  if token_is_valid s0 now then sendPhase s0 0 now auths resps []
  else
    let (s1, out) := authenticate s0 (auths 0) now
    match out with
    | Except.error e => (ReqOutcome.authError e.status e.body, [Ev.authExchange (auths 0).status])
    | Except.ok _ => sendPhase s1 1 now auths resps [Ev.authExchange (auths 0).status]

/-- `OpenEMRClient.post`: identical ensure/send/retry-once logic (the
Python method duplicates `get`'s body with `json=` instead of
`params=`; the payload is opaque here). -/
def postReq (s0 : ClientState) (now : Int) (auths : Nat → AuthResp)
    (resps : Nat → HttpResp) : ReqOutcome × List Ev :=
  if token_is_valid s0 now then sendPhase s0 0 now auths resps []
  else
    let (s1, out) := authenticate s0 (auths 0) now
    match out with
    | Except.error e => (ReqOutcome.authError e.status e.body, [Ev.authExchange (auths 0).status])
    | Except.ok _ => sendPhase s1 1 now auths resps [Ev.authExchange (auths 0).status]

/-! ## Theorems -/

/-- Witness record for the formatter claim: patient-scoped and generic id
both set, full provider name, and an unrecognised status code. -/
def wAppt : RawAppt :=
  { emptyRawAppt with
    pc_pid := some 7, pid := some 3,
    pce_aid_fname := some "Dr", pce_aid_lname := some "Smith",
    pc_apptstatus := some "Z" }

/-- C7: the record formatter is a pure total function: on a record missing
every optional field it yields a normalised appointment of empty strings
(the absent status code echoed as its own empty label); patient id prefers
the truthy `pc_pid` and falls back to `pid`; provider name is the
space-joined blank-filtered concatenation of the provider name fields;
the status label comes from the fixed table, an unrecognised code being
echoed verbatim. -/
theorem c7_formatter_total_defaults :
    (format_appointment emptyRawAppt =
      { appointment_id := none, patient_name := "", patient_id := none,
        provider_name := "", date := "", start_time := "", end_time := "",
        status := "", status_label := "", category := "", facility := "",
        reason := "" })
    ∧ (∀ a : RawAppt, (format_appointment a).patient_id = pyOrNat a.pc_pid a.pid)
    ∧ (∀ (a : RawAppt) (n : Nat), a.pc_pid = some n → n ≠ 0 →
        (format_appointment a).patient_id = some n)
    ∧ (∀ a : RawAppt, natTruthy a.pc_pid = false →
        (format_appointment a).patient_id = a.pid)
    ∧ (∀ (a : RawAppt) (f l : String), a.pce_aid_fname = some f →
        a.pce_aid_lname = some l → f ≠ "" → l ≠ "" →
        (format_appointment a).provider_name = f ++ " " ++ l)
    ∧ (∀ a : RawAppt, a.pce_aid_fname.getD "" = "" →
        (format_appointment a).provider_name = a.pce_aid_lname.getD "")
    ∧ (∀ a : RawAppt, a.pce_aid_lname.getD "" = "" →
        (format_appointment a).provider_name = a.pce_aid_fname.getD "")
    ∧ (∀ (a : RawAppt) (code lbl : String), a.pc_apptstatus = some code →
        STATUS_LABELS.lookup code = some lbl →
        (format_appointment a).status_label = lbl)
    ∧ (∀ (a : RawAppt) (code : String), a.pc_apptstatus = some code →
        STATUS_LABELS.lookup code = none →
        (format_appointment a).status_label = code) := by
  refine ⟨by decide, fun a => rfl, ?_, ?_, ?_, ?_, ?_, ?_, ?_⟩
  · intro a n h hn
    simp [format_appointment, pyOrNat, natTruthy, h, hn]
  · intro a h
    simp [format_appointment, pyOrNat, h]
  · intro a f l hf hl hf0 hl0
    simp [format_appointment, joinNonBlank, joinSep, hf, hl, hf0, hl0]
  · intro a h
    rcases hl : a.pce_aid_lname.getD "" == "" with _ | _
    · simp [format_appointment, joinNonBlank, joinSep, h, hl]
    · have : a.pce_aid_lname.getD "" = "" := by simpa using hl
      simp [format_appointment, joinNonBlank, joinSep, h, this]
  · intro a h
    rcases hf : a.pce_aid_fname.getD "" == "" with _ | _
    · simp [format_appointment, joinNonBlank, joinSep, h, hf]
    · have : a.pce_aid_fname.getD "" = "" := by simpa using hf
      simp [format_appointment, joinNonBlank, joinSep, h, this]
  · intro a code lbl hc hl
    simp [format_appointment, statusLabel, hc, hl]
  · intro a code hc hl
    simp [format_appointment, statusLabel, hc, hl]

/-- Witness for C7: the formatter's field rules evaluated on `wAppt`. -/
theorem c7_formatter_witness :
    (format_appointment wAppt).patient_id = some 7
    ∧ (format_appointment wAppt).provider_name = "Dr" ++ " " ++ "Smith"
    ∧ (format_appointment wAppt).status_label = "Z" :=
  ⟨c7_formatter_total_defaults.2.2.1 wAppt 7 rfl (by decide),
   c7_formatter_total_defaults.2.2.2.2.1 wAppt "Dr" "Smith" rfl rfl (by decide) (by decide),
   c7_formatter_total_defaults.2.2.2.2.2.2.2.2 wAppt "Z" rfl (by decide)⟩

/-- C9: a supplied `patient_id` short-circuits resolution to exactly that
identifier: the only remote call issued is the single patient-scoped
appointment fetch (in particular no patient-search call, whatever
`patient_name` is), no disambiguation is produced, and the result is the
scoped fetch's result. -/
theorem c9_direct_id_short_circuit :
    ∀ (c : Client) (patient_name d pr st : Option String) (pid : Nat),
      (find_appointments_impl c patient_name d pr st (some pid)).2 =
        [ApiCall.patientAppts pid]
      ∧ (find_appointments_impl c patient_name d pr st (some pid)).1.matching_patients = none
      ∧ (find_appointments_impl c patient_name d pr st (some pid)).1 =
          (fetchFilterFormat c [pid] d pr st).1 :=
  fun c n d pr st pid => ⟨rfl, rfl, rfl⟩

/-- C10: an empty-string criterion behaves exactly like an absent one:
an empty `patient_name` triggers no patient search (with no `patient_id`
the single unscoped fetch is issued), and empty-string date, status and
provider filters leave the record set unchanged. -/
theorem c10_empty_string_criteria :
    ∀ (c : Client) (n d pr st : Option String) (pid : Option Nat) (rs : List RawAppt),
      find_appointments_impl c (some "") d pr st pid =
        find_appointments_impl c none d pr st pid
      ∧ find_appointments_impl c n (some "") pr st pid =
          find_appointments_impl c n none pr st pid
      ∧ find_appointments_impl c n d (some "") st pid =
          find_appointments_impl c n d none st pid
      ∧ find_appointments_impl c n d pr (some "") pid =
          find_appointments_impl c n d pr none pid
      ∧ (find_appointments_impl c (some "") d pr st none).2 = [ApiCall.allAppts]
      ∧ applyFilters rs (some "") d pr = applyFilters rs none d pr
      ∧ applyFilters rs d (some "") pr = applyFilters rs d none pr
      ∧ applyFilters rs d pr (some "") = applyFilters rs d pr none :=
  fun c n d pr st pid rs => ⟨rfl, rfl, rfl, rfl, rfl, rfl, rfl, rfl⟩

/-- Sequential filtering: apply each predicate of `ps` in turn. -/
def filterSeq (rs : List RawAppt) (ps : List (RawAppt → Bool)) : List RawAppt :=
  ps.foldl (fun acc p => acc.filter p) rs

/-- The predicates the filtering block actually applies, in its fixed
order date, status, provider (a falsy criterion contributes none). -/
def activeFilters (date status provider_name : Option String) : List (RawAppt → Bool) :=
  (if strTruthy date then [dateMatch (date.getD "")] else []) ++
  (if strTruthy status then [statusMatch (status.getD "")] else []) ++
  (if strTruthy provider_name then
    [fun a => matches_provider a (provider_name.getD "")] else [])

theorem filterSeq_cons (rs : List RawAppt) (p : RawAppt → Bool)
    (ps : List (RawAppt → Bool)) :
    filterSeq rs (p :: ps) = filterSeq (rs.filter p) ps := rfl

theorem filterSeq_eq_filter_all (ps : List (RawAppt → Bool)) (rs : List RawAppt) :
    filterSeq rs ps = rs.filter (fun a => ps.all (fun p => p a)) := by
  induction ps generalizing rs with
  | nil => simp [filterSeq]
  | cons p ps ih =>
    rw [filterSeq_cons, ih, List.filter_filter]
    apply List.filter_congr
    intro a _
    simp [List.all_cons, Bool.and_comm]

theorem all_perm_eq {ps qs : List (RawAppt → Bool)} (h : ps.Perm qs)
    (a : RawAppt) : ps.all (fun p => p a) = qs.all (fun p => p a) := by
  cases hps : ps.all (fun p => p a) <;> cases hqs : qs.all (fun p => p a) <;> try rfl
  · rw [List.all_eq_true] at hqs
    have : ps.all (fun p => p a) = true :=
      List.all_eq_true.2 (fun p hp => hqs p (h.mem_iff.1 hp))
    rw [hps] at this
    exact absurd this (by simp)
  · rw [List.all_eq_true] at hps
    have : qs.all (fun p => p a) = true :=
      List.all_eq_true.2 (fun p hp => hps p (h.mem_iff.2 hp))
    rw [hqs] at this
    exact absurd this (by simp)

theorem applyFilters_eq_filterSeq (rs : List RawAppt) (d s p : Option String) :
    applyFilters rs d s p = filterSeq rs (activeFilters d s p) := by
  unfold applyFilters activeFilters
  cases strTruthy d <;> cases strTruthy s <;> cases strTruthy p <;>
    simp [filterSeq]

/-- C6: the filtering block returns exactly the records satisfying every
supplied (truthy) filter — the conjunction of the active predicates,
never a union — and applying the same active predicates sequentially in
any order yields the same result set. -/
theorem c6_filters_conjunctive_order_independent :
    ∀ (rs : List RawAppt) (d s p : Option String),
      applyFilters rs d s p =
        rs.filter (fun a => (activeFilters d s p).all (fun q => q a))
      ∧ ∀ qs : List (RawAppt → Bool), (activeFilters d s p).Perm qs →
          filterSeq rs qs = applyFilters rs d s p := by
  intro rs d s p
  constructor
  · rw [applyFilters_eq_filterSeq, filterSeq_eq_filter_all]
  · intro qs hperm
    rw [applyFilters_eq_filterSeq, filterSeq_eq_filter_all, filterSeq_eq_filter_all]
    exact List.filter_congr (fun a _ => all_perm_eq hperm.symm a)

/-- Two records differing in date and status, as in the spec's
filter-conjunction scenario. -/
def fAppt1 : RawAppt :=
  { emptyRawAppt with
    pc_eid := some 1, pc_eventDate := some "2026-03-01",
    pc_apptstatus := some "@" }

/-- Companion record to `fAppt1` with the other date and status. -/
def fAppt2 : RawAppt :=
  { emptyRawAppt with
    pc_eid := some 2, pc_eventDate := some "2026-03-02",
    pc_apptstatus := some "-" }

/-- Witness for C6: date and status filters supplied, applied in the
swapped order status-then-date, agree with the pipeline on a concrete
two-record set. -/
theorem c6_filters_witness :
    (activeFilters (some "2026-03-01") (some "@") none).Perm
      [statusMatch "@", dateMatch "2026-03-01"]
    ∧ filterSeq [fAppt1, fAppt2] [statusMatch "@", dateMatch "2026-03-01"] =
        applyFilters [fAppt1, fAppt2] (some "2026-03-01") (some "@") none :=
  have hperm : (activeFilters (some "2026-03-01") (some "@") none).Perm
      [statusMatch "@", dateMatch "2026-03-01"] :=
    List.Perm.swap (statusMatch "@") (dateMatch "2026-03-01") []
  ⟨hperm,
   (c6_filters_conjunctive_order_independent [fAppt1, fAppt2]
      (some "2026-03-01") (some "@") none).2
     [statusMatch "@", dateMatch "2026-03-01"] hperm⟩

theorem ite_some_isSome_iff (l : List NormAppt) (m : String) :
    (if l.isEmpty then some m else none).isSome = true ↔ l = [] := by
  cases hl : l.isEmpty <;> simp_all [List.isEmpty_iff]

/-- C8: in every result, `total_count` equals the length of
`appointments`; a `message` is present exactly when the appointments
list is empty (the no-match and ambiguous early returns and the
empty-filtered case); `matching_patients` is present only on the
ambiguous path (no `patient_id`, a truthy name, more than 5 search
candidates) and then carries no appointment data; and an empty or
fully-filtered-out record set is not an error — it yields an empty
result whose message is the fixed no-matches indicator. -/
theorem c8_result_shape_invariants :
    ∀ (c : Client) (n d pr st : Option String) (pid : Option Nat),
      ((find_appointments_impl c n d pr st pid).1.total_count =
          (find_appointments_impl c n d pr st pid).1.appointments.length)
      ∧ ((find_appointments_impl c n d pr st pid).1.message.isSome = true ↔
          (find_appointments_impl c n d pr st pid).1.appointments = [])
      ∧ ((find_appointments_impl c n d pr st pid).1.matching_patients.isSome = true →
          pid = none ∧ strTruthy n = true ∧
          5 < (search_patients c (n.getD "")).1.length ∧
          (find_appointments_impl c n d pr st pid).1.appointments = [] ∧
          (find_appointments_impl c n d pr st pid).1.total_count = 0)
      ∧ (∀ pids : List Nat,
          (fetchFilterFormat c pids d pr st).1.message =
            if (fetchFilterFormat c pids d pr st).1.appointments.isEmpty
            then some "No appointments found matching criteria." else none) := by
  intro c n d pr st pid
  rcases pid with _ | pid
  · by_cases hn : strTruthy n = true
    · rcases hsp : search_patients c (n.getD "") with ⟨ps, tr⟩
      by_cases hemp : ps.isEmpty = true
      · refine ⟨?_, ?_, ?_, fun pids => rfl⟩ <;>
          simp [find_appointments_impl, hn, hsp, hemp]
      · by_cases hlen : 5 < ps.length
        · refine ⟨?_, ?_, ?_, fun pids => rfl⟩ <;>
            simp [find_appointments_impl, hn, hsp, hemp, hlen]
        · refine ⟨?_, ?_, ?_, fun pids => rfl⟩ <;>
            simp [find_appointments_impl, fetchFilterFormat, hn, hsp, hemp, hlen,
              ite_some_isSome_iff, List.isEmpty_iff]
    · refine ⟨?_, ?_, ?_, fun pids => rfl⟩ <;>
        simp [find_appointments_impl, fetchFilterFormat, hn,
          ite_some_isSome_iff, List.isEmpty_iff]
  · refine ⟨rfl, ?_, ?_, fun pids => rfl⟩ <;>
      simp [find_appointments_impl, fetchFilterFormat,
        ite_some_isSome_iff, List.isEmpty_iff]

/-- Successful token response used by witnesses. -/
def wAuthResp : AuthResp := ⟨200, "", "fresh", none⟩

/-- C4: a cached credential whose remaining lifetime exceeds the
60-second refresh margin is returned as-is with no authentication
exchange; hence two consecutive `ensure` calls, the second while the
first call's credential is still outside the margin, perform at most one
exchange in total; and an absent credential, or one whose remaining
lifetime is at or below the margin, always triggers authentication. -/
theorem c4_ensure_token_refresh_margin :
    ∀ (s : ClientState) (r : AuthResp) (now : Int),
      (∀ t : String, s.access_token = some t →
        TOKEN_REFRESH_MARGIN_SECS < s.token_expiry - now →
        ensure_token s r now = (s, Except.ok (), 0))
      ∧ (token_is_valid s now = false → (ensure_token s r now).2.2 = 1)
      ∧ (s.access_token = none ∨ s.token_expiry - now ≤ TOKEN_REFRESH_MARGIN_SECS →
          token_is_valid s now = false)
      ∧ (∀ (r2 : AuthResp) (now2 : Int),
          (ensure_token s r now).2.1 = Except.ok () →
          token_is_valid (ensure_token s r now).1 now2 = true →
          (ensure_token s r now).2.2 +
            (ensure_token (ensure_token s r now).1 r2 now2).2.2 ≤ 1) := by
  intro s r now
  refine ⟨?_, ?_, ?_, ?_⟩
  · intro t ht hm
    have hlt : now < s.token_expiry - TOKEN_REFRESH_MARGIN_SECS := by omega
    have hv : token_is_valid s now = true := by simp [token_is_valid, ht, hlt]
    simp [ensure_token, hv]
  · intro h
    cases hA : authenticate s r now with
    | mk s2 out => simp [ensure_token, h, hA]
  · rintro (h | h)
    · simp [token_is_valid, h]
    · have : ¬(now < s.token_expiry - TOKEN_REFRESH_MARGIN_SECS) := by omega
      simp [token_is_valid, this]
  · intro r2 now2 hok hv2
    cases hv : token_is_valid s now with
    | true =>
      have h1 : ensure_token s r now = (s, Except.ok (), 0) := by simp [ensure_token, hv]
      rw [h1] at hv2 ⊢
      simp [ensure_token, hv2]
    | false =>
      cases hA : authenticate s r now with
      | mk s2 out =>
        have h1 : ensure_token s r now = (s2, out, 1) := by simp [ensure_token, hv, hA]
        rw [h1] at hv2 ⊢
        simp [ensure_token, hv2]

/-- Witness for C4: a credential with 100 seconds of lifetime at time 0
is outside the 60-second margin and is reused with no exchange. -/
theorem c4_ensure_token_witness :
    (⟨some "tok", 100⟩ : ClientState).access_token = some "tok"
    ∧ TOKEN_REFRESH_MARGIN_SECS < (⟨some "tok", 100⟩ : ClientState).token_expiry - 0
    ∧ ensure_token ⟨some "tok", 100⟩ wAuthResp 0 = (⟨some "tok", 100⟩, Except.ok (), 0) :=
  ⟨rfl, by decide,
   (c4_ensure_token_refresh_margin ⟨some "tok", 100⟩ wAuthResp 0).1 "tok" rfl (by decide)⟩

/-- Failing token-endpoint response used by the C5 analysis. -/
def failAuthResp : AuthResp := ⟨500, "server error", "", none⟩

/-- A cached, still-live credential (expiry 1000, observed at time 0). -/
def cachedState : ClientState := ⟨some "cached", 1000⟩

/-- C5 counterexample: when the token endpoint answers 500, the error is
raised with status and body, but the previously cached credential is NOT
cleared — the state is unchanged and a subsequent validity check still
reports a valid credential, contradicting the claimed transition to
Unset. -/
theorem c5_counterexample_credential_kept :
    (authenticate cachedState failAuthResp 0).2 =
      Except.error ⟨500, "server error"⟩
    ∧ (authenticate cachedState failAuthResp 0).1 = cachedState
    ∧ token_is_valid (authenticate cachedState failAuthResp 0).1 0 = true :=
  ⟨rfl, rfl, by decide⟩

/-- C5 amended: on a non-success token response, `authenticate` fails
with an `AuthError` carrying the response's status and body and leaves
the token state exactly as it was — the cached credential is not
cleared, so a subsequent validity check reports whatever the old
credential's lifetime implies. -/
theorem c5_auth_failure_state_unchanged :
    ∀ (s : ClientState) (r : AuthResp) (now : Int), r.status ≠ 200 →
      authenticate s r now = (s, Except.error ⟨r.status, r.body⟩) := by
  intro s r now h
  simp [authenticate, h]

/-- Witness for the amended C5 at the concrete failing exchange. -/
theorem c5_auth_failure_witness :
    failAuthResp.status ≠ 200
    ∧ authenticate cachedState failAuthResp 3 =
        (cachedState, Except.error ⟨failAuthResp.status, failAuthResp.body⟩) :=
  ⟨by decide, c5_auth_failure_state_unchanged cachedState failAuthResp 3 (by decide)⟩

/-- The 401-recovery contract of one transport call, for a send function
(instantiated at `getReq` and `postReq`): when the first response is a
401 and the re-authentication exchange succeeds, the identical request
is retried exactly once carrying the fresh token — exactly one
re-authentication and exactly two data requests, never a third — and the
retried response passes through `raise_for_status`, so a second 401 (or
any non-2xx) surfaces as an `HttpError` with its status and body. -/
def retrySpec
    (send : ClientState → Int → (Nat → AuthResp) → (Nat → HttpResp) → ReqOutcome × List Ev)
    (s0 : ClientState) (now : Int) (auths : Nat → AuthResp)
    (resps : Nat → HttpResp) : Prop :=
  (token_is_valid s0 now = true → (auths 0).status = 200 →
    send s0 now auths resps =
      (raiseForStatus (resps 1),
       [Ev.httpRequest s0.access_token 401, Ev.authExchange 200,
        Ev.httpRequest (some (auths 0).access_token) (resps 1).status]))
  ∧ (token_is_valid s0 now = false → (auths 0).status = 200 → (auths 1).status = 200 →
      send s0 now auths resps =
        (raiseForStatus (resps 1),
         [Ev.authExchange 200, Ev.httpRequest (some (auths 0).access_token) 401,
          Ev.authExchange 200,
          Ev.httpRequest (some (auths 1).access_token) (resps 1).status]))
  ∧ (token_is_valid s0 now = true → (auths 0).status = 200 →
      countReq (send s0 now auths resps).2 = 2
      ∧ countAuth (send s0 now auths resps).2 = 1)
  ∧ (token_is_valid s0 now = true → (auths 0).status = 200 →
      ¬(200 ≤ (resps 1).status ∧ (resps 1).status ≤ 299) →
      (send s0 now auths resps).1 =
        ReqOutcome.httpError (resps 1).status (resps 1).body)

/-- C2: both `get` and `post` obey the 401-recovery contract, and their
retry logic is identical. -/
theorem c2_retry_once_on_401 :
    ∀ (s0 : ClientState) (now : Int) (auths : Nat → AuthResp) (resps : Nat → HttpResp),
      (resps 0).status = 401 →
      retrySpec getReq s0 now auths resps
      ∧ retrySpec postReq s0 now auths resps
      ∧ getReq s0 now auths resps = postReq s0 now auths resps := by
  intro s0 now auths resps h401
  have hget : retrySpec getReq s0 now auths resps := by
    refine ⟨?_, ?_, ?_, ?_⟩
    · intro hv ha
      simp [getReq, sendPhase, hv, h401, authenticate, ha]
    · intro hv ha0 ha1
      simp [getReq, sendPhase, hv, h401, authenticate, ha0, ha1]
    · intro hv ha
      simp [getReq, sendPhase, hv, h401, authenticate, ha, countReq, countAuth]
    · intro hv ha hns
      simp [getReq, sendPhase, hv, h401, authenticate, ha, raiseForStatus, hns]
  exact ⟨hget, hget, rfl⟩

/-- Stale-token transport state for the C2 witness. -/
def wTransportState : ClientState := ⟨some "stale", 1000⟩

/-- Token endpoint for the C2 witness: always succeeds with a fresh token. -/
def wAuths : Nat → AuthResp := fun _ => ⟨200, "", "fresh", none⟩

/-- Data endpoint for the C2 witness: first a 401, then a 500. -/
def wResps : Nat → HttpResp := fun n =>
  if n = 0 then ⟨401, "unauthorized"⟩ else ⟨500, "server error"⟩

/-- Witness for C2: a concrete 401-then-500 exchange: one
re-authentication, the retried request carries the fresh token, the
second response surfaces as an `HttpError`, and no third request. -/
theorem c2_retry_witness :
    (wResps 0).status = 401
    ∧ retrySpec getReq wTransportState 0 wAuths wResps
    ∧ getReq wTransportState 0 wAuths wResps =
        (ReqOutcome.httpError 500 "server error",
         [Ev.httpRequest (some "stale") 401, Ev.authExchange 200,
          Ev.httpRequest (some "fresh") 500]) :=
  ⟨by decide,
   (c2_retry_once_on_401 wTransportState 0 wAuths wResps (by decide)).1,
   by decide⟩

/-- An i-th candidate patient (pid i+1) for ambiguity scenarios. -/
def ambPatient (i : Nat) : Patient :=
  ⟨some (i + 1), some "Pat", some "Smith", some "1980-01-01"⟩

/-- A client whose patient search returns 6 candidates. -/
def ambClient6 : Client :=
  { lnameResp := fun _ => Extracted.lst ((List.range 6).map ambPatient)
    fnameResp := fun _ => Extracted.lst []
    apptsResp := fun _ => Extracted.lst []
    allResp := Extracted.lst [] }

/-- Witness for C8: the ambiguous path on a concrete 6-candidate client
produces `matching_patients` together with the claimed shape facts. -/
theorem c8_result_shape_witness :
    (find_appointments_impl ambClient6 (some "Smith") none none none
        none).1.matching_patients.isSome = true
    ∧ ((none : Option Nat) = none ∧ strTruthy (some "Smith") = true ∧
        5 < (search_patients ambClient6 ((some "Smith").getD "")).1.length ∧
        (find_appointments_impl ambClient6 (some "Smith") none none none
          none).1.appointments = [] ∧
        (find_appointments_impl ambClient6 (some "Smith") none none none
          none).1.total_count = 0) :=
  ⟨by decide,
   (c8_result_shape_invariants ambClient6 (some "Smith") none none none none).2.2.1
     (by decide)⟩

theorem mem_resolvedPids {ps : List Patient} {p : Patient} (hp : p ∈ ps)
    {k : Nat} (hk : p.pid = some k) (hk0 : k ≠ 0) : k ∈ resolvedPids ps := by
  rw [resolvedPids, List.mem_filterMap]
  exact ⟨p, hp, by simp [natTruthy, hk, hk0]⟩

theorem allAppts_not_mem_search (c : Client) (name : String) :
    ApiCall.allAppts ∉ (search_patients c name).2 := by
  unfold search_patients
  by_cases h : (c.lnameResp name).pyTruthy = true <;> simp [h]

/-- A client whose patient search returns 11 candidates (pids 1..11). -/
def ambClient11 : Client :=
  { lnameResp := fun _ => Extracted.lst ((List.range 11).map ambPatient)
    fnameResp := fun _ => Extracted.lst []
    apptsResp := fun _ => Extracted.lst []
    allResp := Extracted.lst [] }

/-- C1 counterexample: with 11 matching candidates the ambiguous result
carries only the first 10 candidates and a `total_count` of 0 — no
component of the result equals the true match count 11, refuting the
claimed `total_match_count`. -/
theorem c1_counterexample_no_total_match_count :
    ((List.range 11).map ambPatient).length = 11
    ∧ (search_patients ambClient11 "Smith").1.length = 11
    ∧ (find_appointments_impl ambClient11 (some "Smith") none none none
        none).1.matching_patients.isSome = true
    ∧ ((find_appointments_impl ambClient11 (some "Smith") none none none
        none).1.matching_patients.getD []).length = 10
    ∧ (find_appointments_impl ambClient11 (some "Smith") none none none
        none).1.total_count = 0
    ∧ ((find_appointments_impl ambClient11 (some "Smith") none none none
        none).1.matching_patients.getD []).length ≠ 11
    ∧ (find_appointments_impl ambClient11 (some "Smith") none none none
        none).1.total_count ≠ 11 := by
  decide

/-- C1 amended: for a name search, 1–5 candidates at least one of which
carries a truthy pid yield the resolved path — no disambiguation list,
and exactly the candidates' truthy pids are fetched, each candidate's
nonzero identifier included; more than 5 candidates yield the ambiguous
result carrying the first `min 10 n` candidates for display,
`total_count` 0 and no appointment data — the true total match count is
not part of the result. -/
theorem c1_amended_resolver_boundary :
    ∀ (c : Client) (name : String) (d pr st : Option String)
      (ps : List Patient) (tr : List ApiCall),
      name ≠ "" →
      search_patients c name = (ps, tr) →
      ((ps ≠ [] → ps.length ≤ 5 → (∃ p ∈ ps, natTruthy p.pid = true) →
          (find_appointments_impl c (some name) d pr st none).1.matching_patients = none
          ∧ (find_appointments_impl c (some name) d pr st none).2 =
              tr ++ (resolvedPids ps).map ApiCall.patientAppts
          ∧ ∀ p ∈ ps, ∀ k : Nat, p.pid = some k → k ≠ 0 →
              ApiCall.patientAppts k ∈ (find_appointments_impl c (some name) d pr st none).2)
      ∧ (5 < ps.length →
          (find_appointments_impl c (some name) d pr st none).1 =
            { appointments := [], total_count := 0,
              message := some ("Multiple patients match '" ++ name ++
                "'. Please clarify which patient."),
              matching_patients := some ((ps.take 10).map mkMatchEntry) }
          ∧ ((ps.take 10).map mkMatchEntry).length = min 10 ps.length)) := by
  intro c name d pr st ps tr hname hsp
  have htr : strTruthy (some name) = true := by simp [strTruthy, hname]
  constructor
  · rintro hne hle ⟨p0, hp0, hp0t⟩
    obtain ⟨k0, hk0⟩ : ∃ k, p0.pid = some k := by
      cases hpp : p0.pid with
      | none => rw [hpp] at hp0t; simp [natTruthy] at hp0t
      | some k => exact ⟨k, rfl⟩
    have hk00 : k0 ≠ 0 := by
      rw [hk0] at hp0t
      simpa [natTruthy] using hp0t
    have hkmem : k0 ∈ resolvedPids ps := mem_resolvedPids hp0 hk0 hk00
    have hempty : ps.isEmpty = false := by
      cases hps : ps.isEmpty with
      | false => rfl
      | true => exact absurd (List.isEmpty_iff.1 hps) hne
    have hlen : ¬ 5 < ps.length := by omega
    have himpl : find_appointments_impl c (some name) d pr st none =
        ((fetchFilterFormat c (resolvedPids ps) d pr st).1,
         tr ++ (fetchFilterFormat c (resolvedPids ps) d pr st).2) := by
      simp [find_appointments_impl, htr, hsp, hempty, hlen]
    have htrace : (find_appointments_impl c (some name) d pr st none).2 =
        tr ++ (resolvedPids ps).map ApiCall.patientAppts := by
      rw [himpl]
      rcases hrp : resolvedPids ps with _ | ⟨k1, ks⟩
      · exact absurd (hrp ▸ hkmem) (by simp)
      · simp [fetchFilterFormat, fetchPhase]
    refine ⟨by rw [himpl]; rfl, htrace, ?_⟩
    intro p hp k hk hk0
    rw [htrace]
    exact List.mem_append_right tr
      (List.mem_map.2 ⟨k, mem_resolvedPids hp hk hk0, rfl⟩)
  · intro hlen
    have hempty : ps.isEmpty = false := by
      cases hps : ps.isEmpty with
      | false => rfl
      | true =>
        rw [List.isEmpty_iff.1 hps] at hlen
        simp at hlen
    constructor
    · simp [find_appointments_impl, htr, hsp, hempty, hlen]
    · simp [List.length_take]

/-- A client whose patient search returns the two candidates with pids
1 and 2. -/
def resClient2 : Client :=
  { lnameResp := fun _ => Extracted.lst [ambPatient 0, ambPatient 1]
    fnameResp := fun _ => Extracted.lst []
    apptsResp := fun _ => Extracted.lst []
    allResp := Extracted.lst [] }

/-- Witness for the amended C1: two candidates resolve to scoped fetches
of pids 1 and 2 with no disambiguation. -/
theorem c1_resolver_witness :
    ("Smith" : String) ≠ ""
    ∧ search_patients resClient2 "Smith" =
        ([ambPatient 0, ambPatient 1], [ApiCall.patientByLname "Smith"])
    ∧ ([ambPatient 0, ambPatient 1] : List Patient) ≠ []
    ∧ ([ambPatient 0, ambPatient 1] : List Patient).length ≤ 5
    ∧ (∃ p ∈ ([ambPatient 0, ambPatient 1] : List Patient), natTruthy p.pid = true)
    ∧ ((find_appointments_impl resClient2 (some "Smith") none none none
          none).1.matching_patients = none
       ∧ (find_appointments_impl resClient2 (some "Smith") none none none none).2 =
           [ApiCall.patientByLname "Smith"] ++
             (resolvedPids [ambPatient 0, ambPatient 1]).map ApiCall.patientAppts
       ∧ ∀ p ∈ ([ambPatient 0, ambPatient 1] : List Patient), ∀ k : Nat,
           p.pid = some k → k ≠ 0 →
           ApiCall.patientAppts k ∈
             (find_appointments_impl resClient2 (some "Smith") none none none none).2) :=
  ⟨by decide, by decide, by decide, by decide, ⟨ambPatient 0, by decide, by decide⟩,
   (c1_amended_resolver_boundary resClient2 "Smith" none none none
       [ambPatient 0, ambPatient 1] [ApiCall.patientByLname "Smith"]
       (by decide) (by decide)).1
     (by decide) (by decide) ⟨ambPatient 0, by decide, by decide⟩⟩

/-- A candidate patient carrying no pid at all. -/
def noPidPatient : Patient := ⟨none, some "John", some "Doe", none⟩

/-- A client whose name search finds one candidate without a pid, while
the unscoped appointment endpoint holds one record. -/
def fallbackClient : Client :=
  { lnameResp := fun _ => Extracted.lst [noPidPatient]
    fnameResp := fun _ => Extracted.lst []
    apptsResp := fun _ => Extracted.lst []
    allResp := Extracted.lst [fAppt1] }

/-- C3 counterexample: a supplied patient name resolves to one candidate
with no usable pid, and the system falls back to the unscoped
all-appointments fetch, returning its record — refuting the claim that
the unscoped fetch is issued only when no patient criteria were
supplied. -/
theorem c3_counterexample_fallback_to_all :
    strTruthy (some "Doe") = true
    ∧ (search_patients fallbackClient "Doe").1 = [noPidPatient]
    ∧ ApiCall.allAppts ∈
        (find_appointments_impl fallbackClient (some "Doe") none none none none).2
    ∧ (find_appointments_impl fallbackClient (some "Doe") none none none
        none).1.total_count = 1 := by
  decide

/-- C3 amended: the unscoped all-appointments fetch is issued exactly
when no `patient_id` was supplied and either no truthy `patient_name`
was supplied, or the name search returned 1–5 candidates none of which
carried a truthy pid; the early-returning resolution failures (zero
candidates, more than five candidates) never reach the unscoped
fetch. -/
theorem c3_amended_unscoped_fetch_condition :
    ∀ (c : Client) (n d pr st : Option String) (pid : Option Nat),
      ApiCall.allAppts ∈ (find_appointments_impl c n d pr st pid).2 ↔
        (pid = none ∧ (strTruthy n = false ∨
          ((search_patients c (n.getD "")).1 ≠ [] ∧
           (search_patients c (n.getD "")).1.length ≤ 5 ∧
           resolvedPids (search_patients c (n.getD "")).1 = []))) := by
  intro c n d pr st pid
  rcases pid with _ | pid
  · by_cases hn : strTruthy n = true
    · rcases hsp : search_patients c (n.getD "") with ⟨ps, tr⟩
      have htr_no : ApiCall.allAppts ∉ tr := by
        have h := allAppts_not_mem_search c (n.getD "")
        rw [hsp] at h
        exact h
      by_cases hemp : ps.isEmpty = true
      · have hps : ps = [] := List.isEmpty_iff.1 hemp
        simp [find_appointments_impl, hn, hsp, hemp, hps, htr_no]
      · by_cases hlen : 5 < ps.length
        · simp [find_appointments_impl, hn, hsp, hemp, hlen, htr_no]
        · rcases hrp : resolvedPids ps with _ | ⟨k, ks⟩
          · simp [find_appointments_impl, hn, hsp, hemp, hlen, hrp,
              fetchFilterFormat, fetchPhase, fetch_all_appointments, htr_no]
            exact ⟨by simpa [List.isEmpty_iff] using hemp, by omega⟩
          · simp [find_appointments_impl, hn, hsp, hemp, hlen, hrp,
              fetchFilterFormat, fetchPhase, htr_no]
    · have hnf : strTruthy n = false := by
        cases hh : strTruthy n with
        | false => rfl
        | true => exact absurd hh hn
      simp [find_appointments_impl, hnf, fetchFilterFormat, fetchPhase,
        fetch_all_appointments]
  · simp [find_appointments_impl, fetchFilterFormat, fetchPhase]

end OpenEMR
